import Mathlib

/-
Verification of the Valgrind run controller
(src/plugins/valgrind/valgrindengine.cpp, class ValgrindRunControl).

The controller is single-threaded and event-driven, so it is embedded as a
pure state machine: the fields of the C++ object together with the
observable effects (messages appended to the sink, progress-indicator
operations, pane-popup requests, the argument vector handed to the runner)
form the `State`; each member function becomes a state transformer.  Qt
signal/slot delivery is made explicit: the `conn*` booleans record which
runner signals are connected to which slots (`connect`/`disconnect` in the
source), and `emit*` functions deliver a signal to its slot only while the
connection is up, exactly as Qt does.
-/

namespace Valgrind

/-- Utils::OutputFormat - the format tag attached to every message handed to
the message sink via appendMessage. -/
inductive OutputFormat where
  | NormalMessageFormat
  | ErrorMessageFormat
  | LogMessageFormat
  | DebugFormat
  | StdOutFormat
  | StdErrFormat
  deriving DecidableEq

/-- QProcess::ProcessError - the error kind delivered with a process-error
callback. -/
inductive ProcessError where
  | FailedToStart
  | Crashed
  | Timedout
  | ReadError
  | WriteError
  | UnknownError
  deriving DecidableEq

/-- Core::IOutputPane popup flag; the source only ever uses NoModeSwitch. -/
inductive PopupFlag where
  | NoModeSwitch
  | ModeSwitch
  | WithFocus
  deriving DecidableEq

/-- ValgrindBaseSettings::SelfModifyingCodeDetection.  The enum itself is
declared in valgrindsettings.h (not part of this source set); the switch in
genericToolArguments names four enumerators and has a default label, so the
embedding keeps the four named values plus a constructor for any other
(out-of-range) value that would fall into the default case. -/
inductive SelfModifyingCodeDetection where
  | DetectSmcNo
  | DetectSmcEverywhere
  | DetectSmcEverywhereButFile
  | DetectSmcStackOnly
  | unrecognized (v : Nat)
  deriving DecidableEq

/-- The slice of ValgrindBaseSettings the controller reads:
valgrindExecutable() and selfModifyingCodeDetection(). -/
structure ValgrindBaseSettings where
  valgrindExecutable : String
  selfModifyingCodeDetection : SelfModifyingCodeDetection
  deriving DecidableEq

/-- The observable state of one ValgrindRunControl session: its member
variables plus the effects it emits towards the host IDE. -/
structure State where
  /-- m_settings (never null: the constructor falls back to the global
  settings object). -/
  settings : ValgrindBaseSettings
  /-- m_isStopping. -/
  isStopping : Bool
  /-- The message sink: every appendMessage(text, format) call, in order. -/
  messages : List (String × OutputFormat)
  /-- m_progress.reportStarted() has been called. -/
  progressStarted : Bool
  /-- m_progress.cancel() or m_progress.reportCanceled() has been called. -/
  progressCanceled : Bool
  /-- Number of m_progress.reportFinished() calls (progress completion
  reports). -/
  progressFinishedCount : Nat
  /-- Connection runner::processOutputReceived -> receiveProcessOutput. -/
  connOutput : Bool
  /-- Connection runner::processErrorReceived -> receiveProcessError. -/
  connError : Bool
  /-- Connection runner::finished -> runnerFinished. -/
  connFinished : Bool
  /-- Pane-activation (popup) requests sent to the AppOutputPane. -/
  popupRequests : List PopupFlag
  /-- The argument vector handed to the runner via setValgrindArguments. -/
  runnerArgs : List String
  /-- runner()->stop() has been requested. -/
  stopRequested : Bool
  /-- QApplication::alert calls from handleProgressFinished. -/
  alerts : Nat
  deriving DecidableEq

/-- ValgrindRunControl::ValgrindRunControl: m_isStopping starts false;
m_settings is taken from the run configuration's Valgrind aspect when
present, otherwise from ValgrindPlugin::globalSettings(). -/
def mkRunControl (aspectSettings : Option ValgrindBaseSettings)
    (globalSettings : ValgrindBaseSettings) : State :=
  { settings := aspectSettings.getD globalSettings
    isStopping := false
    messages := []
    progressStarted := false
    progressCanceled := false
    progressFinishedCount := 0
    connOutput := false
    connError := false
    connFinished := false
    popupRequests := []
    runnerArgs := []
    stopRequested := false
    alerts := 0 }

/-- RunControl::appendMessage(text, format): append one entry to the message
sink. -/
def appendMessage (s : State) (msg : String) (format : OutputFormat) : State :=
  { s with messages := s.messages ++ [(msg, format)] }

/-- The smc-check token chosen by the switch inside
ValgrindRunControl::genericToolArguments; DetectSmcStackOnly shares the
default label, so both give "stack". -/
def smcCheckValue : SelfModifyingCodeDetection → String
  | .DetectSmcNo => "none"
  | .DetectSmcEverywhere => "all"
  | .DetectSmcEverywhereButFile => "all-non-file"
  | .DetectSmcStackOnly => "stack"
  | .unrecognized _ => "stack"

/-- ValgrindRunControl::genericToolArguments.  The QTC_ASSERT on m_settings
returns an empty list when the settings pointer is null (which the
constructor in fact rules out). -/
def genericToolArguments : Option ValgrindBaseSettings → List String
  | none => []
  | some st => ["--smc-check=" ++ smcCheckValue st.selfModifyingCodeDetection]

/-- ValgrindRunControl::startEngine.  Registers the timed progress task and
calls m_progress.reportStarted(); wires the runner (its argument vector is
genericToolArguments() + toolArguments()); connects the three runner
signals; then attempts the spawn (run->start(), whose outcome is the
external input spawnOk).  On synchronous spawn failure it cancels the
progress indicator and returns false, otherwise it returns true. -/
def startEngine (s : State) (toolArguments : List String) (spawnOk : Bool) :
    State × Bool :=
  let s1 := { s with progressStarted := true }
  let s2 := { s1 with
    runnerArgs := genericToolArguments (some s1.settings) ++ toolArguments }
  let s3 := { s2 with connOutput := true, connError := true, connFinished := true }
  if spawnOk then (s3, true)
  else ({ s3 with progressCanceled := true }, false)

/-- ValgrindRunControl::stopEngine: set m_isStopping, then request
runner()->stop(). -/
def stopEngine (s : State) : State :=
  { s with isStopping := true, stopRequested := true }

/-- ValgrindRunControl::runnerFinished: append the "Analyzing finished."
message, report progress finished, and disconnect the processOutputReceived
and finished connections (the processErrorReceived connection is left up). -/
def runnerFinished (s : State) : State :=
  let s1 := appendMessage s "Analyzing finished.\n" .NormalMessageFormat
  let s2 := { s1 with progressFinishedCount := s1.progressFinishedCount + 1 }
  { s2 with connOutput := false, connFinished := false }

/-- ValgrindRunControl::receiveProcessOutput: forward the line verbatim with
its format tag. -/
def receiveProcessOutput (s : State) (output : String) (format : OutputFormat) :
    State :=
  appendMessage s output format

/-- The error-classification text of ValgrindRunControl::receiveProcessError,
factored out of the branch structure so that theorems can name it: the same
(settings, stopping, message, error) always classify to the same line. -/
def classifiedErrorText (settings : ValgrindBaseSettings) (stopping : Bool)
    (message : String) (error : ProcessError) : String :=
  if error = .FailedToStart then
    if settings.valgrindExecutable ≠ "" then
      "Error: \"" ++ settings.valgrindExecutable ++ "\" could not be started: "
        ++ message ++ "\n"
    else
      "Error: no Valgrind executable set.\n"
  else if stopping = true ∧ error = .Crashed then
    "Process terminated.\n"
  else
    "** " ++ message ++ " **\n"

/-- ValgrindRunControl::receiveProcessError, mirroring the source's branch
structure.  Every branch appends with ErrorMessageFormat.  Afterwards, unless
m_isStopping is set, the AppOutputPane is popped up with NoModeSwitch (the
pane object is looked up from the plugin manager; it is modelled as
present). -/
def receiveProcessError (s : State) (message : String) (error : ProcessError) :
    State :=
  let s1 :=
    if error = .FailedToStart then
      let valgrind := s.settings.valgrindExecutable
      if valgrind ≠ "" then
        appendMessage s
          ("Error: \"" ++ valgrind ++ "\" could not be started: " ++ message ++ "\n")
          .ErrorMessageFormat
      else
        appendMessage s "Error: no Valgrind executable set.\n" .ErrorMessageFormat
    else if s.isStopping = true ∧ error = .Crashed then
      appendMessage s "Process terminated.\n" .ErrorMessageFormat
    else
      appendMessage s ("** " ++ message ++ " **\n") .ErrorMessageFormat
  if s1.isStopping then s1
  else { s1 with popupRequests := s1.popupRequests ++ [.NoModeSwitch] }

/-- ValgrindRunControl::handleProgressCanceled: asks the analyzer manager to
stop the tool (a request to the host, delivered back - if at all - as a
separate stopEngine step), then reportCanceled and reportFinished on the
progress indicator. -/
def handleProgressCanceled (s : State) : State :=
  let s1 := { s with progressCanceled := true }
  { s1 with progressFinishedCount := s1.progressFinishedCount + 1 }

/-- ValgrindRunControl::handleProgressFinished: QApplication::alert on the
main window. -/
def handleProgressFinished (s : State) : State :=
  { s with alerts := s.alerts + 1 }

/-- Delivery of the runner's finished signal: reaches the runnerFinished slot
only while that connection is up. -/
def emitFinished (s : State) : State :=
  if s.connFinished then runnerFinished s else s

/-- Delivery of the runner's processOutputReceived signal. -/
def emitProcessOutput (s : State) (output : String) (format : OutputFormat) :
    State :=
  if s.connOutput then receiveProcessOutput s output format else s

/-- Delivery of the runner's processErrorReceived signal. -/
def emitProcessError (s : State) (message : String) (error : ProcessError) :
    State :=
  if s.connError then receiveProcessError s message error else s

/-- The events a live session can observe: the controller's entry points and
the asynchronous callbacks delivered to it. -/
inductive Op where
  | startEngine (toolArguments : List String) (spawnOk : Bool)
  | stopEngine
  | finishedSignal
  | outputSignal (output : String) (format : OutputFormat)
  | errorSignal (message : String) (error : ProcessError)
  | progressCanceled
  | progressFinished

/-- One step of the session state machine. -/
def step (s : State) : Op → State
  | .startEngine toolArguments spawnOk => (startEngine s toolArguments spawnOk).1
  | .stopEngine => stopEngine s
  | .finishedSignal => emitFinished s
  | .outputSignal output format => emitProcessOutput s output format
  | .errorSignal message error => emitProcessError s message error
  | .progressCanceled => handleProgressCanceled s
  | .progressFinished => handleProgressFinished s

/-- Run a sequence of events from a state. -/
def runOps (s : State) (ops : List Op) : State :=
  ops.foldl step s

/-- A concrete settings object used to instantiate theorems. -/
def sampleSettings : ValgrindBaseSettings :=
  { valgrindExecutable := "/usr/bin/valgrind"
    selfModifyingCodeDetection := .DetectSmcStackOnly }

/-- A freshly constructed session over the sample settings. -/
def sampleState : State := mkRunControl none sampleSettings

/-! Helper lemmas shared by the claim theorems. -/

/-- receiveProcessError appends exactly one entry to the message sink: the
classified text, always with ErrorMessageFormat. -/
theorem receiveProcessError_messages (s : State) (message : String)
    (error : ProcessError) :
    (receiveProcessError s message error).messages =
      s.messages ++
        [(classifiedErrorText s.settings s.isStopping message error,
          OutputFormat.ErrorMessageFormat)] := by
  unfold receiveProcessError classifiedErrorText appendMessage
  by_cases h1 : error = ProcessError.FailedToStart <;>
    by_cases h2 : s.settings.valgrindExecutable = "" <;>
    by_cases h3 : s.isStopping = true ∧ error = ProcessError.Crashed <;>
    by_cases h4 : s.isStopping = true <;>
    simp_all

/-- receiveProcessError leaves the stopping flag unchanged. -/
theorem receiveProcessError_isStopping (s : State) (message : String)
    (error : ProcessError) :
    (receiveProcessError s message error).isStopping = s.isStopping := by
  unfold receiveProcessError appendMessage
  by_cases h1 : error = ProcessError.FailedToStart <;>
    by_cases h2 : s.settings.valgrindExecutable = "" <;>
    by_cases h3 : s.isStopping = true ∧ error = ProcessError.Crashed <;>
    by_cases h4 : s.isStopping = true <;>
    simp_all

/-- receiveProcessError requests a pane popup exactly when the stopping flag
is unset, and always with NoModeSwitch. -/
theorem receiveProcessError_popups (s : State) (message : String)
    (error : ProcessError) :
    (receiveProcessError s message error).popupRequests =
      if s.isStopping then s.popupRequests
      else s.popupRequests ++ [PopupFlag.NoModeSwitch] := by
  unfold receiveProcessError appendMessage
  by_cases h1 : error = ProcessError.FailedToStart <;>
    by_cases h2 : s.settings.valgrindExecutable = "" <;>
    by_cases h3 : s.isStopping = true ∧ error = ProcessError.Crashed <;>
    by_cases h4 : s.isStopping = true <;>
    simp_all

/-! Claim theorems. -/

/-- C1: genericToolArguments produces the single argument "--smc-check="
followed by the token of the fixed mapping: DetectSmcNo to "none",
DetectSmcEverywhere to "all", DetectSmcEverywhereButFile to "all-non-file",
DetectSmcStackOnly to "stack", and any other (unrecognized) value falls into
the default case, also "stack". -/
theorem genericToolArguments_smc_mapping (exe : String) :
    genericToolArguments (some ⟨exe, .DetectSmcNo⟩) = ["--smc-check=none"] ∧
    genericToolArguments (some ⟨exe, .DetectSmcEverywhere⟩) = ["--smc-check=all"] ∧
    genericToolArguments (some ⟨exe, .DetectSmcEverywhereButFile⟩) =
      ["--smc-check=all-non-file"] ∧
    genericToolArguments (some ⟨exe, .DetectSmcStackOnly⟩) = ["--smc-check=stack"] ∧
    ∀ v : Nat, genericToolArguments (some ⟨exe, .unrecognized v⟩) =
      ["--smc-check=stack"] := by
  exact ⟨rfl, rfl, rfl, rfl, fun v => rfl⟩

/-- C2: once the stopping flag is set (it is set exactly by stopEngine and
never cleared, which the invariant claim establishes), a process-error
callback with error kind Crashed appends the benign "Process terminated."
message - and therefore never the generic "** ... **" wrapper around the raw
diagnostic. -/
theorem stop_then_crash_benign (s : State) (message : String)
    (h : s.isStopping = true) :
    (receiveProcessError s message .Crashed).messages =
      s.messages ++
        [("Process terminated.\n", OutputFormat.ErrorMessageFormat)] := by
  rw [receiveProcessError_messages]
  simp [classifiedErrorText, h]

/-- C2 witness: a session that was stopped and then receives a crash callback
has exactly the benign message in its sink. -/
theorem stop_then_crash_benign_witness :
    (receiveProcessError (stopEngine sampleState) "sig" .Crashed).messages =
      [("Process terminated.\n", OutputFormat.ErrorMessageFormat)] := by
  have h := stop_then_crash_benign (stopEngine sampleState) "sig" rfl
  simpa [sampleState, mkRunControl, stopEngine] using h

/-- C3: on a FailedToStart callback, an empty configured executable path
yields the "no Valgrind executable set" message, and a non-empty one yields a
"could not be started" message carrying that path and the raw reason; in both
cases independently of the stopping flag (the theorem makes no assumption on
it). -/
theorem failed_to_start_classification (s : State) (message : String) :
    (s.settings.valgrindExecutable = "" →
      (receiveProcessError s message .FailedToStart).messages =
        s.messages ++
          [("Error: no Valgrind executable set.\n",
            OutputFormat.ErrorMessageFormat)]) ∧
    (s.settings.valgrindExecutable ≠ "" →
      (receiveProcessError s message .FailedToStart).messages =
        s.messages ++
          [("Error: \"" ++ s.settings.valgrindExecutable
              ++ "\" could not be started: " ++ message ++ "\n",
            OutputFormat.ErrorMessageFormat)]) := by
  constructor <;> intro h <;> rw [receiveProcessError_messages] <;>
    simp [classifiedErrorText, h]

/-- C3 witness: both branches at concrete sessions, one configured with an
empty executable path and one with a non-empty path. -/
theorem failed_to_start_classification_witness :
    (receiveProcessError (mkRunControl none ⟨"", .DetectSmcNo⟩) "reason"
        .FailedToStart).messages =
      [("Error: no Valgrind executable set.\n",
        OutputFormat.ErrorMessageFormat)] ∧
    (receiveProcessError (mkRunControl none ⟨"/usr/bin/valgrind", .DetectSmcNo⟩)
        "reason" .FailedToStart).messages =
      [("Error: \"/usr/bin/valgrind\" could not be started: reason\n",
        OutputFormat.ErrorMessageFormat)] := by
  constructor
  · have h := (failed_to_start_classification
      (mkRunControl none ⟨"", .DetectSmcNo⟩) "reason").1 rfl
    simpa [mkRunControl] using h
  · have h := (failed_to_start_classification
      (mkRunControl none ⟨"/usr/bin/valgrind", .DetectSmcNo⟩) "reason").2
      (by decide)
    simpa [mkRunControl] using h

/-- C4: a process-error callback whose kind is not FailedToStart, arriving
with the stopping flag unset, appends the generic error message, which wraps
the raw diagnostic text verbatim. -/
theorem unexpected_error_generic (s : State) (message : String)
    (error : ProcessError) (herr : error ≠ .FailedToStart)
    (hstop : s.isStopping = false) :
    (receiveProcessError s message error).messages =
      s.messages ++
        [("** " ++ message ++ " **\n", OutputFormat.ErrorMessageFormat)] := by
  rw [receiveProcessError_messages]
  simp [classifiedErrorText, herr, hstop]

/-- C4 witness: a crash with no prior stop on a fresh session yields exactly
the generic message wrapping the diagnostic. -/
theorem unexpected_error_generic_witness :
    (receiveProcessError sampleState "the crash text" .Crashed).messages =
      [("** the crash text **\n", OutputFormat.ErrorMessageFormat)] := by
  have h := unexpected_error_generic sampleState "the crash text" .Crashed
    (by decide) rfl
  simpa [sampleState, mkRunControl] using h

/-- C5: startEngine returns false and cancels the progress indicator when the
spawn attempt fails synchronously, and returns true when the spawn
succeeds. -/
theorem startEngine_spawn_result (s : State) (toolArguments : List String) :
    ((startEngine s toolArguments false).2 = false ∧
      (startEngine s toolArguments false).1.progressCanceled = true) ∧
    (startEngine s toolArguments true).2 = true := by
  unfold startEngine
  simp

/-- C6: the finished callback is idempotent under a second delivery: the
first run of runnerFinished disconnects the runner's finished signal from the
slot, so a second delivery changes nothing - in particular it neither appends
the "Analyzing finished." message again nor reports progress completion
again. -/
theorem runnerFinished_second_delivery_noop (s : State) :
    emitFinished (emitFinished s) = emitFinished s ∧
    (emitFinished (emitFinished s)).messages = (emitFinished s).messages ∧
    (emitFinished (emitFinished s)).progressFinishedCount =
      (emitFinished s).progressFinishedCount := by
  have h : emitFinished (emitFinished s) = emitFinished s := by
    unfold emitFinished runnerFinished appendMessage
    by_cases hc : s.connFinished <;> simp [hc]
  exact ⟨h, by rw [h], by rw [h]⟩

/-- C7 counterexample: the "Process terminated." message for a crash after
stopEngine is appended with ErrorMessageFormat, which is not the
informational NormalMessageFormat - the claim that it carries a non-error
tag fails at this concrete input. -/
theorem crash_after_stop_format_counterexample :
    (receiveProcessError (stopEngine sampleState) "sig2" .Crashed).messages =
      [("Process terminated.\n", OutputFormat.ErrorMessageFormat)] ∧
    OutputFormat.ErrorMessageFormat ≠ OutputFormat.NormalMessageFormat := by
  constructor
  · decide
  · decide

/-- C7 amended: the benign "Process terminated." message for a crash after a
stop is appended with the same ErrorMessageFormat tag as every other error
report; only the message text is downgraded to a benign wording. -/
theorem crash_after_stop_error_format (s : State) (message : String)
    (h : s.isStopping = true) :
    (receiveProcessError s message .Crashed).messages.getLast? =
      some ("Process terminated.\n", OutputFormat.ErrorMessageFormat) := by
  rw [receiveProcessError_messages]
  simp [classifiedErrorText, h]

/-- C7 amended witness: the concrete stopped session. -/
theorem crash_after_stop_error_format_witness :
    (receiveProcessError (stopEngine sampleState) "sig3"
        .Crashed).messages.getLast? =
      some ("Process terminated.\n", OutputFormat.ErrorMessageFormat) :=
  crash_after_stop_error_format (stopEngine sampleState) "sig3" rfl

/-- C8: after classifying a process error, receiveProcessError requests a
popup of the output pane with NoModeSwitch exactly when the stopping flag is
unset; when the flag is set, no pane activation is requested. -/
theorem popup_iff_not_stopping (s : State) (message : String)
    (error : ProcessError) :
    (s.isStopping = false →
      (receiveProcessError s message error).popupRequests =
        s.popupRequests ++ [PopupFlag.NoModeSwitch]) ∧
    (s.isStopping = true →
      (receiveProcessError s message error).popupRequests =
        s.popupRequests) := by
  constructor <;> intro h <;> rw [receiveProcessError_popups] <;> simp [h]

/-- C8 witness: a fresh session pops the pane up once, a stopped session not
at all. -/
theorem popup_iff_not_stopping_witness :
    (receiveProcessError sampleState "m" .Crashed).popupRequests =
      [PopupFlag.NoModeSwitch] ∧
    (receiveProcessError (stopEngine sampleState) "m" .Crashed).popupRequests =
      [] := by
  constructor
  · have h := (popup_iff_not_stopping sampleState "m" .Crashed).1 rfl
    simpa [sampleState, mkRunControl] using h
  · have h := (popup_iff_not_stopping (stopEngine sampleState) "m" .Crashed).2 rfl
    simpa [sampleState, mkRunControl, stopEngine] using h

/-- Every step either leaves the stopping flag unchanged or is the stopEngine
operation. -/
theorem step_isStopping_cases (s : State) (op : Op) :
    (step s op).isStopping = s.isStopping ∨ op = Op.stopEngine := by
  cases op with
  | startEngine t ok =>
      left
      unfold step startEngine
      by_cases h : ok <;> simp [h]
  | stopEngine => right; rfl
  | finishedSignal =>
      left
      unfold step emitFinished runnerFinished appendMessage
      by_cases h : s.connFinished <;> simp [h]
  | outputSignal o f =>
      left
      unfold step emitProcessOutput receiveProcessOutput appendMessage
      by_cases h : s.connOutput <;> simp [h]
  | errorSignal m e =>
      left
      unfold step emitProcessError
      by_cases h : s.connError <;> simp [h, receiveProcessError_isStopping]
  | progressCanceled => left; rfl
  | progressFinished => left; rfl

/-- C9: the stopping flag is false on construction, is set by stopEngine, is
set by no other operation, and no operation ever resets it - so along any
event sequence after a stop it stays observed as set. -/
theorem stopping_flag_set_once :
    (∀ (aspect : Option ValgrindBaseSettings) (g : ValgrindBaseSettings),
      (mkRunControl aspect g).isStopping = false) ∧
    (∀ s : State, (stopEngine s).isStopping = true) ∧
    (∀ (s : State) (op : Op), (step s op).isStopping = true →
      s.isStopping = true ∨ op = Op.stopEngine) ∧
    (∀ (s : State) (op : Op), s.isStopping = true →
      (step s op).isStopping = true) ∧
    (∀ (s : State) (ops : List Op), s.isStopping = true →
      (runOps s ops).isStopping = true) := by
  have hstep : ∀ (s : State) (op : Op), s.isStopping = true →
      (step s op).isStopping = true := by
    intro s op h
    rcases step_isStopping_cases s op with heq | hop
    · rw [heq]; exact h
    · subst hop; rfl
  refine ⟨fun a g => rfl, fun s => rfl, ?_, hstep, ?_⟩
  · intro s op h
    rcases step_isStopping_cases s op with heq | hop
    · left; rw [heq] at h; exact h
    · right; exact hop
  · intro s ops
    induction ops generalizing s with
    | nil => intro h; simpa [runOps] using h
    | cons op rest ih =>
        intro h
        have h2 := ih (step s op) (hstep s op h)
        simpa [runOps] using h2

/-- C9 witness: a stopped session still observes the flag set after further
error and finished callbacks. -/
theorem stopping_flag_set_once_witness :
    (runOps (stopEngine sampleState)
        [Op.errorSignal "x" .Crashed, Op.finishedSignal]).isStopping = true :=
  stopping_flag_set_once.2.2.2.2 (stopEngine sampleState)
    [Op.errorSignal "x" .Crashed, Op.finishedSignal] rfl

/-- C10: runnerFinished detaches only the output and finished connections and
leaves the error connection up, and an error signal delivered after
runnerFinished is still classified and appended to the sink exactly as one
delivered before completion: in both cases the sink grows by the same
classified entry (completion changes neither the settings nor the stopping
flag that the classification reads). -/
theorem error_connection_survives_finish (s : State) (message : String)
    (error : ProcessError) (h : s.connError = true) :
    (runnerFinished s).connError = true ∧
    (runnerFinished s).connOutput = false ∧
    (runnerFinished s).connFinished = false ∧
    (emitProcessError (runnerFinished s) message error).messages =
      (runnerFinished s).messages ++
        [(classifiedErrorText s.settings s.isStopping message error,
          OutputFormat.ErrorMessageFormat)] ∧
    (emitProcessError s message error).messages =
      s.messages ++
        [(classifiedErrorText s.settings s.isStopping message error,
          OutputFormat.ErrorMessageFormat)] := by
  have hconn : (runnerFinished s).connError = s.connError := rfl
  have hset : (runnerFinished s).settings = s.settings := rfl
  have hstop : (runnerFinished s).isStopping = s.isStopping := rfl
  refine ⟨by rw [hconn]; exact h, rfl, rfl, ?_, ?_⟩
  · simp [emitProcessError, hconn, h, receiveProcessError_messages, hset, hstop]
  · simp [emitProcessError, h, receiveProcessError_messages]

/-- A session whose spawn succeeded, with all three connections up. -/
def startedState : State := (startEngine sampleState [] true).1

/-- C10 witness: on a started session, completion keeps the error connection
and a subsequent error delivery appends the classified entry. -/
theorem error_connection_survives_finish_witness :
    (runnerFinished startedState).connError = true ∧
    (emitProcessError (runnerFinished startedState) "oops"
        .UnknownError).messages =
      (runnerFinished startedState).messages ++
        [(classifiedErrorText startedState.settings startedState.isStopping
            "oops" .UnknownError,
          OutputFormat.ErrorMessageFormat)] := by
  have h := error_connection_survives_finish startedState "oops"
    .UnknownError rfl
  exact ⟨h.1, h.2.2.2.1⟩

end Valgrind
